import Mathlib

/-!
# Verification of the NE10 FFT constant tables in celt_static_modes_float_arm_ne10.h

The header under scrutiny is generated data: four mixed-radix factor buffers
(ne10_factors_480/240/120/60), four complex twiddle tables
(ne10_twiddles_480/240/120/60) of single-precision float pairs, and four
descriptor structs (ne10_fft_state_float32_t_480/240/120/60) wiring the data
together.

Embedding conventions:

* Every complex twiddle entry in the header is a pair of decimal float
  literals with at most 15 decimal places.  Each table below stores, per
  entry, the pair of exact integer numerators at scale 10^15, so an entry
  (a, b) denotes the rational complex value (a / 10^15, b / 10^15); for
  example the literal pair 0.91354543f, -0.40673664f becomes
  (913545430000000, -406736640000000).  The function twEntry recovers the
  rational value, which is exactly the decimal literal of the header.
  A literal -0.0000000f denotes the rational 0.
* The factor buffers are plain integer lists, transcribed verbatim.
* Each descriptor struct is a Lean structure whose fields follow the
  initializer order of the header.  The twiddle-table pointers of the
  header are modelled as a base list plus an element offset, so the
  initializer taking the address of element 120 of ne10_twiddles_480 becomes
  the pair (ne10_twiddles_480, 120).
* Claims about closeness to the unit circle values e^(-2*pi*i*k/N) are
  stated over the reals with Real.cos and Real.sin, and are decided through
  a small verified integer ball arithmetic at scale 2^40, seeded with
  enclosures of cos(pi/240) and sin(pi/240) derived from the Mathlib bounds
  Real.pi_gt_d6, Real.pi_lt_d6, Real.cos_bound and Real.sin_bound.
-/

open Real

set_option maxHeartbeats 2000000

set_option maxRecDepth 8000
/-- ne10_factors_480 of the header, transcribed verbatim. -/
def ne10_factors_480 : List Int := [
  4, 40, 4, 30, 2, 15, 5, 3, 3, 1, 1, 0, 0, 0, 0, 0,
  0, 0, 0, 0, 0, 0, 0, 0, 0, 0, 0, 0, 0, 0, 0, 0,
  0, 0, 0, 0, 0, 0, 0, 0, 0, 0, 0, 0, 0, 0, 0, 0,
  0, 0, 0, 0, 0, 0, 0, 0, 0, 0, 0, 0, 0, 0, 0, 0]

/-- ne10_factors_240 of the header, transcribed verbatim. -/
def ne10_factors_240 : List Int := [
  3, 20, 4, 15, 5, 3, 3, 1, 1, 0, 0, 0, 0, 0, 0, 0,
  0, 0, 0, 0, 0, 0, 0, 0, 0, 0, 0, 0, 0, 0, 0, 0,
  0, 0, 0, 0, 0, 0, 0, 0, 0, 0, 0, 0, 0, 0, 0, 0,
  0, 0, 0, 0, 0, 0, 0, 0, 0, 0, 0, 0, 0, 0, 0, 0]

/-- ne10_factors_120 of the header, transcribed verbatim. -/
def ne10_factors_120 : List Int := [
  3, 10, 2, 15, 5, 3, 3, 1, 1, 0, 0, 0, 0, 0, 0, 0,
  0, 0, 0, 0, 0, 0, 0, 0, 0, 0, 0, 0, 0, 0, 0, 0,
  0, 0, 0, 0, 0, 0, 0, 0, 0, 0, 0, 0, 0, 0, 0, 0,
  0, 0, 0, 0, 0, 0, 0, 0, 0, 0, 0, 0, 0, 0, 0, 0]

/-- ne10_factors_60 of the header, transcribed verbatim. -/
def ne10_factors_60 : List Int := [
  2, 5, 5, 3, 3, 1, 1, 0, 0, 0, 0, 0, 0, 0, 0, 0,
  0, 0, 0, 0, 0, 0, 0, 0, 0, 0, 0, 0, 0, 0, 0, 0,
  0, 0, 0, 0, 0, 0, 0, 0, 0, 0, 0, 0, 0, 0, 0, 0,
  0, 0, 0, 0, 0, 0, 0, 0, 0, 0, 0, 0, 0, 0, 0, 0]

/-- Entries 0 to 59 of ne10_twiddles_480 of the header. -/
def ne10_twiddles_480_part0 : List (Int × Int) := [
  (1000000000000000, 0), (1000000000000000, 0), (1000000000000000, 0),
  (1000000000000000, 0), (913545430000000, -406736640000000), (669130560000000, -743144870000000),
  (1000000000000000, 0), (669130560000000, -743144870000000), (-104528510000000, -994521920000000),
  (1000000000000000, 0), (309016970000000, -951056540000000), (-809017000000000, -587785180000000),
  (1000000000000000, 0), (-104528510000000, -994521920000000), (-978147570000000, 207911790000000),
  (1000000000000000, 0), (978147630000000, -207911700000000), (913545430000000, -406736640000000),
  (809017000000000, -587785240000000), (669130560000000, -743144870000000), (499999970000000, -866025450000000),
  (309016970000000, -951056540000000), (104528420000000, -994521920000000), (-104528510000000, -994521920000000),
  (-309017030000000, -951056480000000), (-500000060000000, -866025330000000), (-669130680000000, -743144750000000),
  (-809017000000000, -587785180000000), (-913545490000000, -406736580000000), (-978147630000000, -207911610000000),
  (1000000000000000, 0), (998629510000000, -52335959000000), (994521920000000, -104528460000000),
  (987688360000000, -156434480000000), (978147630000000, -207911700000000), (965925810000000, -258819040000000),
  (951056480000000, -309017000000000), (933580400000000, -358367950000000), (913545430000000, -406736640000000),
  (891006530000000, -453990520000000), (866025450000000, -500000000000000), (838670550000000, -544639050000000),
  (809017000000000, -587785240000000), (777145980000000, -629320380000000), (743144750000000, -669130620000000),
  (707106770000000, -707106830000000), (669130560000000, -743144870000000), (629320380000000, -777145980000000),
  (587785240000000, -809017000000000), (544638990000000, -838670550000000), (499999970000000, -866025450000000),
  (453990520000000, -891006530000000), (406736610000000, -913545490000000), (358367860000000, -933580460000000),
  (309016970000000, -951056540000000), (258819070000000, -965925810000000), (207911660000000, -978147630000000),
  (156434370000000, -987688360000000), (104528420000000, -994521920000000), (52335974000000, -998629510000000)]

/-- Entries 60 to 119 of ne10_twiddles_480 of the header. -/
def ne10_twiddles_480_part1 : List (Int × Int) := [
  (1000000000000000, 0), (994521920000000, -104528460000000), (978147630000000, -207911700000000),
  (951056480000000, -309017000000000), (913545430000000, -406736640000000), (866025450000000, -500000000000000),
  (809017000000000, -587785240000000), (743144750000000, -669130620000000), (669130560000000, -743144870000000),
  (587785240000000, -809017000000000), (499999970000000, -866025450000000), (406736610000000, -913545490000000),
  (309016970000000, -951056540000000), (207911660000000, -978147630000000), (104528420000000, -994521920000000),
  (-43711388, -1000000000000000), (-104528510000000, -994521920000000), (-207911740000000, -978147570000000),
  (-309017030000000, -951056480000000), (-406736700000000, -913545430000000), (-500000060000000, -866025330000000),
  (-587785180000000, -809017000000000), (-669130680000000, -743144750000000), (-743144930000000, -669130440000000),
  (-809017000000000, -587785180000000), (-866025390000000, -500000060000000), (-913545490000000, -406736580000000),
  (-951056540000000, -309016790000000), (-978147630000000, -207911610000000), (-994521920000000, -104528490000000),
  (1000000000000000, 0), (987688360000000, -156434480000000), (951056480000000, -309017000000000),
  (891006530000000, -453990520000000), (809017000000000, -587785240000000), (707106770000000, -707106830000000),
  (587785240000000, -809017000000000), (453990520000000, -891006530000000), (309016970000000, -951056540000000),
  (156434370000000, -987688360000000), (-43711388, -1000000000000000), (-156434450000000, -987688360000000),
  (-309017030000000, -951056480000000), (-453990610000000, -891006470000000), (-587785180000000, -809017000000000),
  (-707106770000000, -707106770000000), (-809017000000000, -587785180000000), (-891006590000000, -453990370000000),
  (-951056540000000, -309016790000000), (-987688360000000, -156434450000000), (-1000000000000000, 87422777),
  (-987688300000000, 156434610000000), (-951056540000000, 309016970000000), (-891006530000000, 453990550000000),
  (-809016940000000, 587785360000000), (-707106650000000, 707106890000000), (-587785070000000, 809017120000000),
  (-453990220000000, 891006650000000), (-309017090000000, 951056480000000), (-156434520000000, 987688300000000)]

/-- Entries 120 to 179 of ne10_twiddles_480 of the header. -/
def ne10_twiddles_480_part2 : List (Int × Int) := [
  (1000000000000000, 0), (999914350000000, -13089596000000), (999657330000000, -26176950000000),
  (999229010000000, -39259817000000), (998629510000000, -52335959000000), (997858940000000, -65403134000000),
  (996917310000000, -78459099000000), (995804910000000, -91501623000000), (994521920000000, -104528460000000),
  (993068460000000, -117537400000000), (991444890000000, -130526200000000), (989651380000000, -143492620000000),
  (987688360000000, -156434480000000), (985556070000000, -169349510000000), (983254910000000, -182235520000000),
  (980785250000000, -195090320000000), (978147630000000, -207911700000000), (975342330000000, -220697450000000),
  (972369910000000, -233445380000000), (969230890000000, -246153300000000), (965925810000000, -258819040000000),
  (962455210000000, -271440450000000), (958819750000000, -284015360000000), (955019950000000, -296541600000000),
  (951056480000000, -309017000000000), (946930110000000, -321439450000000), (942641500000000, -333806870000000),
  (938191290000000, -346117080000000), (933580400000000, -358367950000000), (928809520000000, -370557430000000),
  (923879560000000, -382683460000000), (918791170000000, -394743890000000), (913545430000000, -406736640000000),
  (908143160000000, -418659750000000), (902585270000000, -430511120000000), (896872700000000, -442288730000000),
  (891006530000000, -453990520000000), (884987650000000, -465614530000000), (878817080000000, -477158780000000),
  (872496010000000, -488621260000000), (866025450000000, -500000000000000), (859406410000000, -511293110000000),
  (852640150000000, -522498550000000), (845727860000000, -533614520000000), (838670550000000, -544639050000000),
  (831469600000000, -555570240000000), (824126180000000, -566406250000000), (816641510000000, -577145220000000),
  (809017000000000, -587785240000000), (801253800000000, -598324600000000), (793353320000000, -608761430000000),
  (785316940000000, -619093950000000), (777145980000000, -629320380000000), (768841800000000, -639438990000000),
  (760405960000000, -649448100000000), (751839820000000, -659345870000000), (743144750000000, -669130620000000),
  (734322490000000, -678800760000000), (725374340000000, -688354550000000), (716301920000000, -697790500000000)]

/-- Entries 180 to 239 of ne10_twiddles_480 of the header. -/
def ne10_twiddles_480_part3 : List (Int × Int) := [
  (707106770000000, -707106830000000), (697790440000000, -716301980000000), (688354550000000, -725374400000000),
  (678800700000000, -734322550000000), (669130560000000, -743144870000000), (659345810000000, -751839820000000),
  (649448040000000, -760405960000000), (639438990000000, -768841860000000), (629320380000000, -777145980000000),
  (619093950000000, -785316940000000), (608761370000000, -793353380000000), (598324600000000, -801253860000000),
  (587785240000000, -809017000000000), (577145160000000, -816641510000000), (566406250000000, -824126180000000),
  (555570190000000, -831469600000000), (544638990000000, -838670550000000), (533614520000000, -845727860000000),
  (522498490000000, -852640150000000), (511293110000000, -859406410000000), (499999970000000, -866025450000000),
  (488621180000000, -872496010000000), (477158760000000, -878817080000000), (465614470000000, -884987650000000),
  (453990520000000, -891006530000000), (442288670000000, -896872760000000), (430511030000000, -902585330000000),
  (418659750000000, -908143160000000), (406736610000000, -913545490000000), (394743800000000, -918791290000000),
  (382683430000000, -923879560000000), (370557400000000, -928809580000000), (358367860000000, -933580460000000),
  (346117050000000, -938191350000000), (333806810000000, -942641500000000), (321439470000000, -946930110000000),
  (309016970000000, -951056540000000), (296541510000000, -955019950000000), (284015330000000, -958819750000000),
  (271440390000000, -962455270000000), (258819070000000, -965925810000000), (246153270000000, -969230890000000),
  (233445300000000, -972369910000000), (220697450000000, -975342330000000), (207911660000000, -978147630000000),
  (195090230000000, -980785310000000), (182235520000000, -983254910000000), (169349450000000, -985556070000000),
  (156434370000000, -987688360000000), (143492590000000, -989651380000000), (130526130000000, -991444890000000),
  (117537400000000, -993068460000000), (104528420000000, -994521920000000), (91501534000000, -995804910000000),
  (78459084000000, -996917310000000), (65403074000000, -997858940000000), (52335974000000, -998629510000000),
  (39259788000000, -999229010000000), (26176875000000, -999657330000000), (13089597000000, -999914350000000)]

/-- Entries 240 to 299 of ne10_twiddles_480 of the header. -/
def ne10_twiddles_480_part4 : List (Int × Int) := [
  (1000000000000000, 0), (999657330000000, -26176950000000), (998629510000000, -52335959000000),
  (996917310000000, -78459099000000), (994521920000000, -104528460000000), (991444890000000, -130526200000000),
  (987688360000000, -156434480000000), (983254910000000, -182235520000000), (978147630000000, -207911700000000),
  (972369910000000, -233445380000000), (965925810000000, -258819040000000), (958819750000000, -284015360000000),
  (951056480000000, -309017000000000), (942641500000000, -333806870000000), (933580400000000, -358367950000000),
  (923879560000000, -382683460000000), (913545430000000, -406736640000000), (902585270000000, -430511120000000),
  (891006530000000, -453990520000000), (878817080000000, -477158780000000), (866025450000000, -500000000000000),
  (852640150000000, -522498550000000), (838670550000000, -544639050000000), (824126180000000, -566406250000000),
  (809017000000000, -587785240000000), (793353320000000, -608761430000000), (777145980000000, -629320380000000),
  (760405960000000, -649448100000000), (743144750000000, -669130620000000), (725374340000000, -688354550000000),
  (707106770000000, -707106830000000), (688354550000000, -725374400000000), (669130560000000, -743144870000000),
  (649448040000000, -760405960000000), (629320380000000, -777145980000000), (608761370000000, -793353380000000),
  (587785240000000, -809017000000000), (566406250000000, -824126180000000), (544638990000000, -838670550000000),
  (522498490000000, -852640150000000), (499999970000000, -866025450000000), (477158760000000, -878817080000000),
  (453990520000000, -891006530000000), (430511030000000, -902585330000000), (406736610000000, -913545490000000),
  (382683430000000, -923879560000000), (358367860000000, -933580460000000), (333806810000000, -942641500000000),
  (309016970000000, -951056540000000), (284015330000000, -958819750000000), (258819070000000, -965925810000000),
  (233445300000000, -972369910000000), (207911660000000, -978147630000000), (182235520000000, -983254910000000),
  (156434370000000, -987688360000000), (130526130000000, -991444890000000), (104528420000000, -994521920000000),
  (78459084000000, -996917310000000), (52335974000000, -998629510000000), (26176875000000, -999657330000000)]

/-- Entries 300 to 359 of ne10_twiddles_480 of the header. -/
def ne10_twiddles_480_part5 : List (Int × Int) := [
  (-43711388, -1000000000000000), (-26176963000000, -999657330000000), (-52336060000000, -998629510000000),
  (-78459173000000, -996917310000000), (-104528510000000, -994521920000000), (-130526210000000, -991444890000000),
  (-156434450000000, -987688360000000), (-182235600000000, -983254910000000), (-207911740000000, -978147570000000),
  (-233445380000000, -972369910000000), (-258819160000000, -965925810000000), (-284015420000000, -958819690000000),
  (-309017030000000, -951056480000000), (-333806870000000, -942641500000000), (-358367950000000, -933580400000000),
  (-382683520000000, -923879500000000), (-406736700000000, -913545430000000), (-430511120000000, -902585270000000),
  (-453990610000000, -891006470000000), (-477158730000000, -878817080000000), (-500000060000000, -866025330000000),
  (-522498670000000, -852640090000000), (-544639050000000, -838670550000000), (-566406310000000, -824126120000000),
  (-587785180000000, -809017000000000), (-608761430000000, -793353320000000), (-629320500000000, -777145860000000),
  (-649448040000000, -760405960000000), (-669130680000000, -743144750000000), (-688354670000000, -725374280000000),
  (-707106770000000, -707106770000000), (-725374460000000, -688354490000000), (-743144930000000, -669130440000000),
  (-760405960000000, -649448040000000), (-777146040000000, -629320260000000), (-793353320000000, -608761430000000),
  (-809017000000000, -587785180000000), (-824126240000000, -566406130000000), (-838670550000000, -544638990000000),
  (-852640210000000, -522498490000000), (-866025390000000, -500000060000000), (-878817140000000, -477158730000000),
  (-891006590000000, -453990370000000), (-902585270000000, -430511120000000), (-913545490000000, -406736580000000),
  (-923879560000000, -382683280000000), (-933580400000000, -358367920000000), (-942641500000000, -333806750000000),
  (-951056540000000, -309016790000000), (-958819750000000, -284015300000000), (-965925870000000, -258818920000000),
  (-972369910000000, -233445380000000), (-978147630000000, -207911610000000), (-983254910000000, -182235360000000),
  (-987688360000000, -156434450000000), (-991444890000000, -130526080000000), (-994521920000000, -104528490000000),
  (-996917370000000, -78459039000000), (-998629570000000, -52335810000000), (-999657330000000, -26176952000000)]

/-- Entries 360 to 419 of ne10_twiddles_480 of the header. -/
def ne10_twiddles_480_part6 : List (Int × Int) := [
  (1000000000000000, 0), (999229010000000, -39259817000000), (996917310000000, -78459099000000),
  (993068460000000, -117537400000000), (987688360000000, -156434480000000), (980785250000000, -195090320000000),
  (972369910000000, -233445380000000), (962455210000000, -271440450000000), (951056480000000, -309017000000000),
  (938191290000000, -346117080000000), (923879560000000, -382683460000000), (908143160000000, -418659750000000),
  (891006530000000, -453990520000000), (872496010000000, -488621260000000), (852640150000000, -522498550000000),
  (831469600000000, -555570240000000), (809017000000000, -587785240000000), (785316940000000, -619093950000000),
  (760405960000000, -649448100000000), (734322490000000, -678800760000000), (707106770000000, -707106830000000),
  (678800700000000, -734322550000000), (649448040000000, -760405960000000), (619093950000000, -785316940000000),
  (587785240000000, -809017000000000), (555570190000000, -831469600000000), (522498490000000, -852640150000000),
  (488621180000000, -872496010000000), (453990520000000, -891006530000000), (418659750000000, -908143160000000),
  (382683430000000, -923879560000000), (346117050000000, -938191350000000), (309016970000000, -951056540000000),
  (271440390000000, -962455270000000), (233445300000000, -972369910000000), (195090230000000, -980785310000000),
  (156434370000000, -987688360000000), (117537400000000, -993068460000000), (78459084000000, -996917310000000),
  (39259788000000, -999229010000000), (-43711388, -1000000000000000), (-39259877000000, -999229010000000),
  (-78459173000000, -996917310000000), (-117537490000000, -993068460000000), (-156434450000000, -987688360000000),
  (-195090320000000, -980785250000000), (-233445380000000, -972369910000000), (-271440480000000, -962455210000000),
  (-309017030000000, -951056480000000), (-346117110000000, -938191290000000), (-382683520000000, -923879500000000),
  (-418659840000000, -908143100000000), (-453990610000000, -891006470000000), (-488621350000000, -872495950000000),
  (-522498670000000, -852640090000000), (-555570360000000, -831469540000000), (-587785180000000, -809017000000000),
  (-619093890000000, -785316940000000), (-649448040000000, -760405960000000), (-678800760000000, -734322490000000)]

/-- Entries 420 to 479 of ne10_twiddles_480 of the header. -/
def ne10_twiddles_480_part7 : List (Int × Int) := [
  (-707106770000000, -707106770000000), (-734322490000000, -678800700000000), (-760405960000000, -649448040000000),
  (-785316940000000, -619093890000000), (-809017000000000, -587785180000000), (-831469660000000, -555570190000000),
  (-852640210000000, -522498490000000), (-872496070000000, -488621150000000), (-891006590000000, -453990370000000),
  (-908143220000000, -418659600000000), (-923879560000000, -382683280000000), (-938191350000000, -346116900000000),
  (-951056540000000, -309016790000000), (-962455210000000, -271440480000000), (-972369910000000, -233445380000000),
  (-980785310000000, -195090310000000), (-987688360000000, -156434450000000), (-993068460000000, -117537360000000),
  (-996917370000000, -78459039000000), (-999229010000000, -39259743000000), (-1000000000000000, 87422777),
  (-999229010000000, 39259918000000), (-996917310000000, 78459218000000), (-993068460000000, 117537530000000),
  (-987688300000000, 156434610000000), (-980785250000000, 195090490000000), (-972369850000000, 233445540000000),
  (-962455150000000, 271440650000000), (-951056540000000, 309016970000000), (-938191350000000, 346117050000000),
  (-923879560000000, 382683460000000), (-908143160000000, 418659750000000), (-891006530000000, 453990550000000),
  (-872496010000000, 488621290000000), (-852640150000000, 522498610000000), (-831469600000000, 555570300000000),
  (-809016940000000, 587785360000000), (-785316880000000, 619094010000000), (-760405900000000, 649448160000000),
  (-734322430000000, 678800820000000), (-707106650000000, 707106890000000), (-678800580000000, 734322610000000),
  (-649447920000000, 760406080000000), (-619093780000000, 785317060000000), (-587785070000000, 809017120000000),
  (-555570010000000, 831469770000000), (-522498370000000, 852640330000000), (-488621000000000, 872496130000000),
  (-453990220000000, 891006650000000), (-418659450000000, 908143280000000), (-382683130000000, 923879680000000),
  (-346116720000000, 938191470000000), (-309017090000000, 951056480000000), (-271440540000000, 962455210000000),
  (-233445450000000, 972369910000000), (-195090380000000, 980785250000000), (-156434520000000, 987688300000000),
  (-117537430000000, 993068460000000), (-78459114000000, 996917310000000), (-39259821000000, 999229010000000)]

/-- ne10_twiddles_480 of the header, one integer pair per complex float entry, at scale 10^15. -/
def ne10_twiddles_480 : List (Int × Int) :=
  ne10_twiddles_480_part0 ++ ne10_twiddles_480_part1 ++ ne10_twiddles_480_part2 ++ ne10_twiddles_480_part3 ++ ne10_twiddles_480_part4 ++ ne10_twiddles_480_part5 ++ ne10_twiddles_480_part6 ++ ne10_twiddles_480_part7

/-- Entries 0 to 59 of ne10_twiddles_240 of the header. -/
def ne10_twiddles_240_part0 : List (Int × Int) := [
  (1000000000000000, 0), (1000000000000000, 0), (1000000000000000, 0),
  (1000000000000000, 0), (913545430000000, -406736640000000), (669130560000000, -743144870000000),
  (1000000000000000, 0), (669130560000000, -743144870000000), (-104528510000000, -994521920000000),
  (1000000000000000, 0), (309016970000000, -951056540000000), (-809017000000000, -587785180000000),
  (1000000000000000, 0), (-104528510000000, -994521920000000), (-978147570000000, 207911790000000),
  (1000000000000000, 0), (994521920000000, -104528460000000), (978147630000000, -207911700000000),
  (951056480000000, -309017000000000), (913545430000000, -406736640000000), (866025450000000, -500000000000000),
  (809017000000000, -587785240000000), (743144750000000, -669130620000000), (669130560000000, -743144870000000),
  (587785240000000, -809017000000000), (499999970000000, -866025450000000), (406736610000000, -913545490000000),
  (309016970000000, -951056540000000), (207911660000000, -978147630000000), (104528420000000, -994521920000000),
  (1000000000000000, 0), (978147630000000, -207911700000000), (913545430000000, -406736640000000),
  (809017000000000, -587785240000000), (669130560000000, -743144870000000), (499999970000000, -866025450000000),
  (309016970000000, -951056540000000), (104528420000000, -994521920000000), (-104528510000000, -994521920000000),
  (-309017030000000, -951056480000000), (-500000060000000, -866025330000000), (-669130680000000, -743144750000000),
  (-809017000000000, -587785180000000), (-913545490000000, -406736580000000), (-978147630000000, -207911610000000),
  (1000000000000000, 0), (951056480000000, -309017000000000), (809017000000000, -587785240000000),
  (587785240000000, -809017000000000), (309016970000000, -951056540000000), (-43711388, -1000000000000000),
  (-309017030000000, -951056480000000), (-587785180000000, -809017000000000), (-809017000000000, -587785180000000),
  (-951056540000000, -309016790000000), (-1000000000000000, 87422777), (-951056540000000, 309016970000000),
  (-809016940000000, 587785360000000), (-587785070000000, 809017120000000), (-309017090000000, 951056480000000)]

/-- Entries 60 to 119 of ne10_twiddles_240 of the header. -/
def ne10_twiddles_240_part1 : List (Int × Int) := [
  (1000000000000000, 0), (999657330000000, -26176950000000), (998629510000000, -52335959000000),
  (996917310000000, -78459099000000), (994521920000000, -104528460000000), (991444890000000, -130526200000000),
  (987688360000000, -156434480000000), (983254910000000, -182235520000000), (978147630000000, -207911700000000),
  (972369910000000, -233445380000000), (965925810000000, -258819040000000), (958819750000000, -284015360000000),
  (951056480000000, -309017000000000), (942641500000000, -333806870000000), (933580400000000, -358367950000000),
  (923879560000000, -382683460000000), (913545430000000, -406736640000000), (902585270000000, -430511120000000),
  (891006530000000, -453990520000000), (878817080000000, -477158780000000), (866025450000000, -500000000000000),
  (852640150000000, -522498550000000), (838670550000000, -544639050000000), (824126180000000, -566406250000000),
  (809017000000000, -587785240000000), (793353320000000, -608761430000000), (777145980000000, -629320380000000),
  (760405960000000, -649448100000000), (743144750000000, -669130620000000), (725374340000000, -688354550000000),
  (707106770000000, -707106830000000), (688354550000000, -725374400000000), (669130560000000, -743144870000000),
  (649448040000000, -760405960000000), (629320380000000, -777145980000000), (608761370000000, -793353380000000),
  (587785240000000, -809017000000000), (566406250000000, -824126180000000), (544638990000000, -838670550000000),
  (522498490000000, -852640150000000), (499999970000000, -866025450000000), (477158760000000, -878817080000000),
  (453990520000000, -891006530000000), (430511030000000, -902585330000000), (406736610000000, -913545490000000),
  (382683430000000, -923879560000000), (358367860000000, -933580460000000), (333806810000000, -942641500000000),
  (309016970000000, -951056540000000), (284015330000000, -958819750000000), (258819070000000, -965925810000000),
  (233445300000000, -972369910000000), (207911660000000, -978147630000000), (182235520000000, -983254910000000),
  (156434370000000, -987688360000000), (130526130000000, -991444890000000), (104528420000000, -994521920000000),
  (78459084000000, -996917310000000), (52335974000000, -998629510000000), (26176875000000, -999657330000000)]

/-- Entries 120 to 179 of ne10_twiddles_240 of the header. -/
def ne10_twiddles_240_part2 : List (Int × Int) := [
  (1000000000000000, 0), (998629510000000, -52335959000000), (994521920000000, -104528460000000),
  (987688360000000, -156434480000000), (978147630000000, -207911700000000), (965925810000000, -258819040000000),
  (951056480000000, -309017000000000), (933580400000000, -358367950000000), (913545430000000, -406736640000000),
  (891006530000000, -453990520000000), (866025450000000, -500000000000000), (838670550000000, -544639050000000),
  (809017000000000, -587785240000000), (777145980000000, -629320380000000), (743144750000000, -669130620000000),
  (707106770000000, -707106830000000), (669130560000000, -743144870000000), (629320380000000, -777145980000000),
  (587785240000000, -809017000000000), (544638990000000, -838670550000000), (499999970000000, -866025450000000),
  (453990520000000, -891006530000000), (406736610000000, -913545490000000), (358367860000000, -933580460000000),
  (309016970000000, -951056540000000), (258819070000000, -965925810000000), (207911660000000, -978147630000000),
  (156434370000000, -987688360000000), (104528420000000, -994521920000000), (52335974000000, -998629510000000),
  (-43711388, -1000000000000000), (-52336060000000, -998629510000000), (-104528510000000, -994521920000000),
  (-156434450000000, -987688360000000), (-207911740000000, -978147570000000), (-258819160000000, -965925810000000),
  (-309017030000000, -951056480000000), (-358367950000000, -933580400000000), (-406736700000000, -913545430000000),
  (-453990610000000, -891006470000000), (-500000060000000, -866025330000000), (-544639050000000, -838670550000000),
  (-587785180000000, -809017000000000), (-629320500000000, -777145860000000), (-669130680000000, -743144750000000),
  (-707106770000000, -707106770000000), (-743144930000000, -669130440000000), (-777146040000000, -629320260000000),
  (-809017000000000, -587785180000000), (-838670550000000, -544638990000000), (-866025390000000, -500000060000000),
  (-891006590000000, -453990370000000), (-913545490000000, -406736580000000), (-933580400000000, -358367920000000),
  (-951056540000000, -309016790000000), (-965925870000000, -258818920000000), (-978147630000000, -207911610000000),
  (-987688360000000, -156434450000000), (-994521920000000, -104528490000000), (-998629570000000, -52335810000000)]

/-- Entries 180 to 239 of ne10_twiddles_240 of the header. -/
def ne10_twiddles_240_part3 : List (Int × Int) := [
  (1000000000000000, 0), (996917310000000, -78459099000000), (987688360000000, -156434480000000),
  (972369910000000, -233445380000000), (951056480000000, -309017000000000), (923879560000000, -382683460000000),
  (891006530000000, -453990520000000), (852640150000000, -522498550000000), (809017000000000, -587785240000000),
  (760405960000000, -649448100000000), (707106770000000, -707106830000000), (649448040000000, -760405960000000),
  (587785240000000, -809017000000000), (522498490000000, -852640150000000), (453990520000000, -891006530000000),
  (382683430000000, -923879560000000), (309016970000000, -951056540000000), (233445300000000, -972369910000000),
  (156434370000000, -987688360000000), (78459084000000, -996917310000000), (-43711388, -1000000000000000),
  (-78459173000000, -996917310000000), (-156434450000000, -987688360000000), (-233445380000000, -972369910000000),
  (-309017030000000, -951056480000000), (-382683520000000, -923879500000000), (-453990610000000, -891006470000000),
  (-522498670000000, -852640090000000), (-587785180000000, -809017000000000), (-649448040000000, -760405960000000),
  (-707106770000000, -707106770000000), (-760405960000000, -649448040000000), (-809017000000000, -587785180000000),
  (-852640210000000, -522498490000000), (-891006590000000, -453990370000000), (-923879560000000, -382683280000000),
  (-951056540000000, -309016790000000), (-972369910000000, -233445380000000), (-987688360000000, -156434450000000),
  (-996917370000000, -78459039000000), (-1000000000000000, 87422777), (-996917310000000, 78459218000000),
  (-987688300000000, 156434610000000), (-972369850000000, 233445540000000), (-951056540000000, 309016970000000),
  (-923879560000000, 382683460000000), (-891006530000000, 453990550000000), (-852640150000000, 522498610000000),
  (-809016940000000, 587785360000000), (-760405900000000, 649448160000000), (-707106650000000, 707106890000000),
  (-649447920000000, 760406080000000), (-587785070000000, 809017120000000), (-522498370000000, 852640330000000),
  (-453990220000000, 891006650000000), (-382683130000000, 923879680000000), (-309017090000000, 951056480000000),
  (-233445450000000, 972369910000000), (-156434520000000, 987688300000000), (-78459114000000, 996917310000000)]

/-- ne10_twiddles_240 of the header, one integer pair per complex float entry, at scale 10^15. -/
def ne10_twiddles_240 : List (Int × Int) :=
  ne10_twiddles_240_part0 ++ ne10_twiddles_240_part1 ++ ne10_twiddles_240_part2 ++ ne10_twiddles_240_part3

/-- Entries 0 to 59 of ne10_twiddles_120 of the header. -/
def ne10_twiddles_120_part0 : List (Int × Int) := [
  (1000000000000000, 0), (1000000000000000, 0), (1000000000000000, 0),
  (1000000000000000, 0), (913545430000000, -406736640000000), (669130560000000, -743144870000000),
  (1000000000000000, 0), (669130560000000, -743144870000000), (-104528510000000, -994521920000000),
  (1000000000000000, 0), (309016970000000, -951056540000000), (-809017000000000, -587785180000000),
  (1000000000000000, 0), (-104528510000000, -994521920000000), (-978147570000000, 207911790000000),
  (1000000000000000, 0), (978147630000000, -207911700000000), (913545430000000, -406736640000000),
  (809017000000000, -587785240000000), (669130560000000, -743144870000000), (499999970000000, -866025450000000),
  (309016970000000, -951056540000000), (104528420000000, -994521920000000), (-104528510000000, -994521920000000),
  (-309017030000000, -951056480000000), (-500000060000000, -866025330000000), (-669130680000000, -743144750000000),
  (-809017000000000, -587785180000000), (-913545490000000, -406736580000000), (-978147630000000, -207911610000000),
  (1000000000000000, 0), (998629510000000, -52335959000000), (994521920000000, -104528460000000),
  (987688360000000, -156434480000000), (978147630000000, -207911700000000), (965925810000000, -258819040000000),
  (951056480000000, -309017000000000), (933580400000000, -358367950000000), (913545430000000, -406736640000000),
  (891006530000000, -453990520000000), (866025450000000, -500000000000000), (838670550000000, -544639050000000),
  (809017000000000, -587785240000000), (777145980000000, -629320380000000), (743144750000000, -669130620000000),
  (707106770000000, -707106830000000), (669130560000000, -743144870000000), (629320380000000, -777145980000000),
  (587785240000000, -809017000000000), (544638990000000, -838670550000000), (499999970000000, -866025450000000),
  (453990520000000, -891006530000000), (406736610000000, -913545490000000), (358367860000000, -933580460000000),
  (309016970000000, -951056540000000), (258819070000000, -965925810000000), (207911660000000, -978147630000000),
  (156434370000000, -987688360000000), (104528420000000, -994521920000000), (52335974000000, -998629510000000)]

/-- Entries 60 to 119 of ne10_twiddles_120 of the header. -/
def ne10_twiddles_120_part1 : List (Int × Int) := [
  (1000000000000000, 0), (994521920000000, -104528460000000), (978147630000000, -207911700000000),
  (951056480000000, -309017000000000), (913545430000000, -406736640000000), (866025450000000, -500000000000000),
  (809017000000000, -587785240000000), (743144750000000, -669130620000000), (669130560000000, -743144870000000),
  (587785240000000, -809017000000000), (499999970000000, -866025450000000), (406736610000000, -913545490000000),
  (309016970000000, -951056540000000), (207911660000000, -978147630000000), (104528420000000, -994521920000000),
  (-43711388, -1000000000000000), (-104528510000000, -994521920000000), (-207911740000000, -978147570000000),
  (-309017030000000, -951056480000000), (-406736700000000, -913545430000000), (-500000060000000, -866025330000000),
  (-587785180000000, -809017000000000), (-669130680000000, -743144750000000), (-743144930000000, -669130440000000),
  (-809017000000000, -587785180000000), (-866025390000000, -500000060000000), (-913545490000000, -406736580000000),
  (-951056540000000, -309016790000000), (-978147630000000, -207911610000000), (-994521920000000, -104528490000000),
  (1000000000000000, 0), (987688360000000, -156434480000000), (951056480000000, -309017000000000),
  (891006530000000, -453990520000000), (809017000000000, -587785240000000), (707106770000000, -707106830000000),
  (587785240000000, -809017000000000), (453990520000000, -891006530000000), (309016970000000, -951056540000000),
  (156434370000000, -987688360000000), (-43711388, -1000000000000000), (-156434450000000, -987688360000000),
  (-309017030000000, -951056480000000), (-453990610000000, -891006470000000), (-587785180000000, -809017000000000),
  (-707106770000000, -707106770000000), (-809017000000000, -587785180000000), (-891006590000000, -453990370000000),
  (-951056540000000, -309016790000000), (-987688360000000, -156434450000000), (-1000000000000000, 87422777),
  (-987688300000000, 156434610000000), (-951056540000000, 309016970000000), (-891006530000000, 453990550000000),
  (-809016940000000, 587785360000000), (-707106650000000, 707106890000000), (-587785070000000, 809017120000000),
  (-453990220000000, 891006650000000), (-309017090000000, 951056480000000), (-156434520000000, 987688300000000)]

/-- ne10_twiddles_120 of the header, one integer pair per complex float entry, at scale 10^15. -/
def ne10_twiddles_120 : List (Int × Int) :=
  ne10_twiddles_120_part0 ++ ne10_twiddles_120_part1

/-- ne10_twiddles_60 of the header, one integer pair per complex float entry, at scale 10^15. -/
def ne10_twiddles_60 : List (Int × Int) := [
  (1000000000000000, 0), (1000000000000000, 0), (1000000000000000, 0),
  (1000000000000000, 0), (913545430000000, -406736640000000), (669130560000000, -743144870000000),
  (1000000000000000, 0), (669130560000000, -743144870000000), (-104528510000000, -994521920000000),
  (1000000000000000, 0), (309016970000000, -951056540000000), (-809017000000000, -587785180000000),
  (1000000000000000, 0), (-104528510000000, -994521920000000), (-978147570000000, 207911790000000),
  (1000000000000000, 0), (994521920000000, -104528460000000), (978147630000000, -207911700000000),
  (951056480000000, -309017000000000), (913545430000000, -406736640000000), (866025450000000, -500000000000000),
  (809017000000000, -587785240000000), (743144750000000, -669130620000000), (669130560000000, -743144870000000),
  (587785240000000, -809017000000000), (499999970000000, -866025450000000), (406736610000000, -913545490000000),
  (309016970000000, -951056540000000), (207911660000000, -978147630000000), (104528420000000, -994521920000000),
  (1000000000000000, 0), (978147630000000, -207911700000000), (913545430000000, -406736640000000),
  (809017000000000, -587785240000000), (669130560000000, -743144870000000), (499999970000000, -866025450000000),
  (309016970000000, -951056540000000), (104528420000000, -994521920000000), (-104528510000000, -994521920000000),
  (-309017030000000, -951056480000000), (-500000060000000, -866025330000000), (-669130680000000, -743144750000000),
  (-809017000000000, -587785180000000), (-913545490000000, -406736580000000), (-978147630000000, -207911610000000),
  (1000000000000000, 0), (951056480000000, -309017000000000), (809017000000000, -587785240000000),
  (587785240000000, -809017000000000), (309016970000000, -951056540000000), (-43711388, -1000000000000000),
  (-309017030000000, -951056480000000), (-587785180000000, -809017000000000), (-809017000000000, -587785180000000),
  (-951056540000000, -309016790000000), (-1000000000000000, 87422777), (-951056540000000, 309016970000000),
  (-809016940000000, 587785360000000), (-587785070000000, 809017120000000), (-309017090000000, 951056480000000)]
/-- A twiddle-table pointer of the header: a base array together with an
element offset into it.  The header initializes such pointers either with the
array itself (offset 0) or with the address of an interior element. -/
structure TwiddleRef where
  base : List (Int × Int)
  offset : ℕ

/-- The descriptor struct ne10_fft_state_float32_t, with fields in the order
of the initializers of the header: nfft, factors, twiddles, buffer,
last_twiddles, is_forward_scaled, is_backward_scaled.  The NULL buffer of the
header is modelled as none.  The two scale flags are the ne10_int32_t values
of the header (1 and 0, annotated there as true and false). -/
structure Ne10FftState where
  nfft : Int
  factors : List Int
  twiddles : TwiddleRef
  buffer : Option TwiddleRef
  last_twiddles : TwiddleRef
  is_forward_scaled : Int
  is_backward_scaled : Int

/-- ne10_fft_state_float32_t_480 of the header. -/
def ne10_fft_state_float32_t_480 : Ne10FftState :=
  ⟨120, ne10_factors_480, ⟨ne10_twiddles_480, 0⟩, none, ⟨ne10_twiddles_480, 120⟩, 1, 0⟩

/-- ne10_fft_state_float32_t_240 of the header. -/
def ne10_fft_state_float32_t_240 : Ne10FftState :=
  ⟨60, ne10_factors_240, ⟨ne10_twiddles_240, 0⟩, none, ⟨ne10_twiddles_240, 60⟩, 1, 0⟩

/-- ne10_fft_state_float32_t_120 of the header. -/
def ne10_fft_state_float32_t_120 : Ne10FftState :=
  ⟨30, ne10_factors_120, ⟨ne10_twiddles_120, 0⟩, none, ⟨ne10_twiddles_120, 30⟩, 1, 0⟩

/-- ne10_fft_state_float32_t_60 of the header. -/
def ne10_fft_state_float32_t_60 : Ne10FftState :=
  ⟨15, ne10_factors_60, ⟨ne10_twiddles_60, 0⟩, none, ⟨ne10_twiddles_60, 15⟩, 1, 0⟩

/-- The four twiddle tables of the header, each paired with the nominal
transform length it is named for. -/
def twiddleTables : List (ℕ × List (Int × Int)) :=
  [(480, ne10_twiddles_480), (240, ne10_twiddles_240),
   (120, ne10_twiddles_120), (60, ne10_twiddles_60)]

/-- The four descriptor structs of the header, each paired with the nominal
transform length it is named for. -/
def fftStates : List (ℕ × Ne10FftState) :=
  [(480, ne10_fft_state_float32_t_480), (240, ne10_fft_state_float32_t_240),
   (120, ne10_fft_state_float32_t_120), (60, ne10_fft_state_float32_t_60)]

/-- The rational complex value of entry i of a twiddle table: the stored
integer numerators divided by the scale 10^15.  This is exactly the pair of
decimal float literals of the header at that position. -/
def twEntry (tw : List (Int × Int)) (i : ℕ) : ℚ × ℚ :=
  (((tw.getD i (0, 0)).1 : ℚ) / 1000000000000000,
   ((tw.getD i (0, 0)).2 : ℚ) / 1000000000000000)

/-- Entry i of a twiddle table approximates e^(-i*theta), componentwise
within 1/100000 (the formalization of single-precision accuracy used here):
the real part is close to cos theta and the imaginary part to -sin theta. -/
def twiddleApprox (tw : List (Int × Int)) (i : ℕ) (θ : ℝ) : Prop :=
  |((twEntry tw i).1 : ℝ) - Real.cos θ| ≤ 1 / 100000 ∧
  |((twEntry tw i).2 : ℝ) + Real.sin θ| ≤ 1 / 100000

/-- Claim C1 as stated, at one table and one index: entry k of the forward
twiddle table for transform length N equals e^(-2*pi*i*k/N) to
single-precision accuracy. -/
def C1Claim (tw : List (Int × Int)) (N k : ℕ) : Prop :=
  twiddleApprox tw k (2 * π * k / N)

/-- Claim C2 as stated, at one length: the product of the entries of the
factors buffer, ignoring sentinel zero entries, equals the length. -/
def C2Claim (N : Int) (fac : List Int) : Prop :=
  (fac.filter (fun x => x != 0)).prod = N

/-- Claim C3 as stated: the factors buffer for length 60 begins
2, 5, 5, 3, 3, 1, 1, and entry 1 of the length-60 forward twiddle table is
approximately (0.99452192, -0.10452846). -/
def C3Claim : Prop :=
  ne10_factors_60.take 7 = [2, 5, 5, 3, 3, 1, 1] ∧
  |(twEntry ne10_twiddles_60 1).1 - 0.99452192| ≤ 1 / 1000000 ∧
  |(twEntry ne10_twiddles_60 1).2 - (-0.10452846)| ≤ 1 / 1000000

/-- Claim C7 as stated, at one descriptor: the twiddle table holds exactly N
entries, and N is the value of the stored length field (nfft) of the
descriptor struct. -/
def C7Claim (N : ℕ) (tw : List (Int × Int)) (st : Ne10FftState) : Prop :=
  tw.length = N ∧ st.nfft = (N : Int)

/-- The stage radices recorded in a factors buffer, read according to the
NE10 layout of the generated data: entry 0 is the stage count, entry 1 a
stride, and the stages follow as (radix, remainder) pairs, so the radix of
stage i sits at position 2 * i + 2. -/
def stageRadices (fac : List Int) : List Int :=
  (List.range (fac.headD 0).toNat).map (fun i => fac.getD (2 * i + 2) 0)

/-- An integer ball at scale 2^40 = 1099511627776: the pair (c, r) denotes
the set of reals x with the distance from x to c / 2^40 at most r / 2^40. -/
structure ZBall where
  c : Int
  r : Int

/-- Membership of a real number in the set denoted by an integer ball. -/
def inBall (x : ℝ) (b : ZBall) : Prop :=
  |x - (b.c : ℝ) / 1099511627776| ≤ (b.r : ℝ) / 1099511627776

/-- Exact ball addition. -/
def ZBall.add (a b : ZBall) : ZBall := ⟨a.c + b.c, a.r + b.r⟩

/-- Exact ball subtraction. -/
def ZBall.sub (a b : ZBall) : ZBall := ⟨a.c - b.c, a.r + b.r⟩

/-- Ball multiplication with outward rounding: the center is the floor of
the scaled product, and the radius collects the product radius bound plus
two units covering both roundings. -/
def ZBall.mul (a b : ZBall) : ZBall :=
  ⟨a.c * b.c / 1099511627776,
   (|a.c| * b.r + |b.c| * a.r + a.r * b.r) / 1099511627776 + 2⟩

/-- A verified enclosure of cos(pi/240) at scale 2^40. -/
def cos0Ball : ZBall := ⟨1099417428612, 1714⟩

/-- A verified enclosure of sin(pi/240) at scale 2^40. -/
def sin0Ball : ZBall := ⟨14392161826, 3975⟩

/-- One angle-addition step: given balls around (cos x, sin x), produce
balls around (cos (x + pi/240), sin (x + pi/240)). -/
def ballStep (p : ZBall × ZBall) : ZBall × ZBall :=
  (ZBall.sub (ZBall.mul p.1 cos0Ball) (ZBall.mul p.2 sin0Ball),
   ZBall.add (ZBall.mul p.2 cos0Ball) (ZBall.mul p.1 sin0Ball))

/-- n angle-addition steps. -/
def nstep : ℕ → ZBall × ZBall → ZBall × ZBall
  | 0, p => p
  | n + 1, p => nstep n (ballStep p)

/-- The exact ball pair around (cos 0, sin 0) = (1, 0). -/
def unitBall : ZBall × ZBall := (⟨1099511627776, 0⟩, ⟨0, 0⟩)

/-- Boolean check that a stored table entry is within 1/100000 of the value
e^(-i*x) enclosed by the ball pair p: the comparison is carried out on
integers at the common scale 10^15 * 2^40, where the tolerance becomes
10^10 * 2^40 = 10995116277760000000000. -/
def entryOK (e : Int × Int) (p : ZBall × ZBall) : Bool :=
  decide (|e.1 * 1099511627776 - p.1.c * 1000000000000000| + p.1.r * 1000000000000000
      ≤ 10995116277760000000000) &&
  decide (|e.2 * 1099511627776 + p.2.c * 1000000000000000| + p.2.r * 1000000000000000
      ≤ 10995116277760000000000)

/-- Boolean check of c consecutive table entries starting at index i,
advancing the ball pair by s angle steps of pi/240 per entry. -/
def checkIdx : ZBall × ZBall → ℕ → ℕ → ℕ → List (Int × Int) → Bool
  | _, _, _, 0, _ => true
  | p, s, i, c + 1, tw => entryOK (tw.getD i (0, 0)) p && checkIdx (nstep s p) s (i + 1) c tw
theorem inBall_add {x y : ℝ} {a b : ZBall} (ha : inBall x a) (hb : inBall y b) :
    inBall (x + y) (a.add b) := by
  unfold inBall ZBall.add at *
  simp only
  push_cast
  have h1 : x + y - ((a.c : ℝ) + b.c) / 1099511627776 =
      (x - (a.c : ℝ) / 1099511627776) + (y - (b.c : ℝ) / 1099511627776) := by ring
  have h2 : ((a.r : ℝ) + b.r) / 1099511627776 =
      (a.r : ℝ) / 1099511627776 + (b.r : ℝ) / 1099511627776 := by ring
  rw [h1, h2]
  exact (abs_add _ _).trans (add_le_add ha hb)

theorem inBall_sub {x y : ℝ} {a b : ZBall} (ha : inBall x a) (hb : inBall y b) :
    inBall (x - y) (a.sub b) := by
  unfold inBall ZBall.sub at *
  simp only
  push_cast
  have h1 : x - y - ((a.c : ℝ) - b.c) / 1099511627776 =
      (x - (a.c : ℝ) / 1099511627776) - (y - (b.c : ℝ) / 1099511627776) := by ring
  have h2 : ((a.r : ℝ) + b.r) / 1099511627776 =
      (a.r : ℝ) / 1099511627776 + (b.r : ℝ) / 1099511627776 := by ring
  rw [h1, h2]
  exact (abs_sub _ _).trans (add_le_add ha hb)

theorem ball_mul_core {x y cx cy rx ry : ℝ} (hx : |x - cx| ≤ rx) (hy : |y - cy| ≤ ry) :
    |x * y - cx * cy| ≤ |cx| * ry + |cy| * rx + rx * ry := by
  have h0x : (0:ℝ) ≤ |x - cx| := abs_nonneg _
  have h0y : (0:ℝ) ≤ |y - cy| := abs_nonneg _
  have hrx : (0:ℝ) ≤ rx := h0x.trans hx
  have h1 : x * y - cx * cy = cx * (y - cy) + cy * (x - cx) + (x - cx) * (y - cy) := by ring
  rw [h1]
  calc |cx * (y - cy) + cy * (x - cx) + (x - cx) * (y - cy)|
      ≤ |cx * (y - cy) + cy * (x - cx)| + |(x - cx) * (y - cy)| := abs_add _ _
    _ ≤ |cx * (y - cy)| + |cy * (x - cx)| + |(x - cx) * (y - cy)| := by
        have := abs_add (cx * (y - cy)) (cy * (x - cx)); linarith
    _ = |cx| * |y - cy| + |cy| * |x - cx| + |x - cx| * |y - cy| := by
        rw [abs_mul, abs_mul, abs_mul]
    _ ≤ |cx| * ry + |cy| * rx + rx * ry := by
        have m1 := mul_le_mul_of_nonneg_left hy (abs_nonneg cx)
        have m2 := mul_le_mul_of_nonneg_left hx (abs_nonneg cy)
        have m3 := mul_le_mul hx hy h0y hrx
        linarith

theorem scaled_div_le (a : Int) : a / 1099511627776 * 1099511627776 ≤ a := by
  have h := Int.ediv_add_emod a 1099511627776
  have h2 := Int.emod_nonneg a (by norm_num : (1099511627776 : Int) ≠ 0)
  omega

theorem lt_scaled_div_add_one (a : Int) : a < (a / 1099511627776 + 1) * 1099511627776 := by
  have h := Int.ediv_add_emod a 1099511627776
  have h2 := Int.emod_lt_of_pos a (by norm_num : (0:Int) < 1099511627776)
  omega

theorem inBall_mul {x y : ℝ} {a b : ZBall} (ha : inBall x a) (hb : inBall y b) :
    inBall (x * y) (a.mul b) := by
  obtain ⟨ca, ra⟩ := a
  obtain ⟨cb, rb⟩ := b
  unfold inBall ZBall.mul at *
  simp only at *
  have hS : (0:ℝ) < 1099511627776 := by norm_num
  have core := ball_mul_core ha hb
  -- rewrite the scaled absolute values
  have habs1 : |(ca : ℝ) / 1099511627776| = (|ca| : ℝ) / 1099511627776 := by
    rw [abs_div, abs_of_pos hS]
  have habs2 : |(cb : ℝ) / 1099511627776| = (|cb| : ℝ) / 1099511627776 := by
    rw [abs_div, abs_of_pos hS]
  rw [habs1, habs2] at core
  -- integer rounding facts, cast to the reals
  have hd1 : ((ca * cb / 1099511627776 * 1099511627776 : Int) : ℝ) ≤ ((ca * cb : Int) : ℝ) :=
    Int.cast_le.mpr (scaled_div_le _)
  have hd2 : ((ca * cb : Int) : ℝ) < (((ca * cb / 1099511627776 + 1) * 1099511627776 : Int) : ℝ) :=
    Int.cast_lt.mpr (lt_scaled_div_add_one _)
  have hr1 : (((|ca| * rb + |cb| * ra + ra * rb) / 1099511627776 * 1099511627776 : Int) : ℝ) ≤
      ((|ca| * rb + |cb| * ra + ra * rb : Int) : ℝ) := Int.cast_le.mpr (scaled_div_le _)
  have hr2 : ((|ca| * rb + |cb| * ra + ra * rb : Int) : ℝ) <
      ((((|ca| * rb + |cb| * ra + ra * rb) / 1099511627776 + 1) * 1099511627776 : Int) : ℝ) :=
    Int.cast_lt.mpr (lt_scaled_div_add_one _)
  push_cast at hd1 hd2 hr1 hr2 ⊢
  set c' : ℝ := ((ca * cb / 1099511627776 : Int) : ℝ) with hc'
  set d' : ℝ := (((|ca| * rb + |cb| * ra + ra * rb) / 1099511627776 : Int) : ℝ) with hd'
  have key : |x * y - c' / 1099511627776| ≤
      |x * y - (ca : ℝ) / 1099511627776 * ((cb : ℝ) / 1099511627776)| +
      |(ca : ℝ) / 1099511627776 * ((cb : ℝ) / 1099511627776) - c' / 1099511627776| :=
    abs_sub_le _ _ _
  have hcenter : |(ca : ℝ) / 1099511627776 * ((cb : ℝ) / 1099511627776) - c' / 1099511627776| ≤
      1 / 1099511627776 := by
    rw [abs_le]
    constructor
    · nlinarith
    · nlinarith
  calc |x * y - c' / 1099511627776|
      ≤ (|ca| : ℝ) / 1099511627776 * ((rb : ℝ) / 1099511627776) +
        (|cb| : ℝ) / 1099511627776 * ((ra : ℝ) / 1099511627776) +
        (ra : ℝ) / 1099511627776 * ((rb : ℝ) / 1099511627776) + 1 / 1099511627776 := by
        have := key
        nlinarith [core, hcenter]
    _ ≤ (d' + 2) / 1099511627776 := by nlinarith [hr1, hr2]

theorem unit_cos : inBall (Real.cos 0) unitBall.1 := by
  unfold inBall unitBall
  simp [Real.cos_zero]

theorem unit_sin : inBall (Real.sin 0) unitBall.2 := by
  unfold inBall unitBall
  simp [Real.sin_zero]

theorem cos0_mem : inBall (Real.cos (π / 240)) cos0Ball := by
  unfold inBall cos0Ball
  simp only
  have hl := Real.pi_gt_d6
  have hh := Real.pi_lt_d6
  norm_num at hl hh
  have hθl : (3141592 / 240000000 : ℝ) ≤ π / 240 := by linarith
  have hθh : π / 240 ≤ (3141593 / 240000000 : ℝ) := by linarith
  have h0 : (0:ℝ) ≤ π / 240 := by linarith
  have h1 : |π / 240| ≤ 1 := by rw [abs_of_nonneg h0]; linarith
  have hb := Real.cos_bound h1
  rw [abs_of_nonneg h0] at hb
  have hb1 := (abs_le.mp hb).1
  have hb2 := (abs_le.mp hb).2
  have h2 : (π / 240) ^ 2 ≤ (3141593 / 240000000 : ℝ) ^ 2 := by nlinarith
  have h2l : (3141592 / 240000000 : ℝ) ^ 2 ≤ (π / 240) ^ 2 := by nlinarith
  have h4 : (π / 240) ^ 4 ≤ (3141593 / 240000000 : ℝ) ^ 4 := by nlinarith
  rw [abs_le]
  push_cast
  constructor
  · nlinarith
  · nlinarith

theorem sin0_mem : inBall (Real.sin (π / 240)) sin0Ball := by
  unfold inBall sin0Ball
  simp only
  have hl := Real.pi_gt_d6
  have hh := Real.pi_lt_d6
  norm_num at hl hh
  have hθl : (3141592 / 240000000 : ℝ) ≤ π / 240 := by linarith
  have hθh : π / 240 ≤ (3141593 / 240000000 : ℝ) := by linarith
  have h0 : (0:ℝ) ≤ π / 240 := by linarith
  have h1 : |π / 240| ≤ 1 := by rw [abs_of_nonneg h0]; linarith
  have hb := Real.sin_bound h1
  rw [abs_of_nonneg h0] at hb
  have hb1 := (abs_le.mp hb).1
  have hb2 := (abs_le.mp hb).2
  have h3 : (π / 240) ^ 3 ≤ (3141593 / 240000000 : ℝ) ^ 3 := pow_le_pow_left₀ h0 hθh 3
  have h3l : (3141592 / 240000000 : ℝ) ^ 3 ≤ (π / 240) ^ 3 :=
    pow_le_pow_left₀ (by norm_num) hθl 3
  have h4 : (π / 240) ^ 4 ≤ (3141593 / 240000000 : ℝ) ^ 4 := pow_le_pow_left₀ h0 hθh 4
  rw [abs_le]
  push_cast
  constructor
  · nlinarith
  · nlinarith

theorem ballStep_mem {x : ℝ} {p : ZBall × ZBall}
    (h1 : inBall (Real.cos x) p.1) (h2 : inBall (Real.sin x) p.2) :
    inBall (Real.cos (x + π / 240)) (ballStep p).1 ∧
    inBall (Real.sin (x + π / 240)) (ballStep p).2 := by
  constructor
  · show inBall _ (ZBall.sub (ZBall.mul p.1 cos0Ball) (ZBall.mul p.2 sin0Ball))
    rw [Real.cos_add]
    exact inBall_sub (inBall_mul h1 cos0_mem) (inBall_mul h2 sin0_mem)
  · show inBall _ (ZBall.add (ZBall.mul p.2 cos0Ball) (ZBall.mul p.1 sin0Ball))
    rw [Real.sin_add]
    exact inBall_add (inBall_mul h2 cos0_mem) (inBall_mul h1 sin0_mem)

theorem nstep_mem (n : ℕ) {x : ℝ} {p : ZBall × ZBall}
    (h1 : inBall (Real.cos x) p.1) (h2 : inBall (Real.sin x) p.2) :
    inBall (Real.cos (x + n * (π / 240))) (nstep n p).1 ∧
    inBall (Real.sin (x + n * (π / 240))) (nstep n p).2 := by
  induction n generalizing x p with
  | zero => simpa using ⟨h1, h2⟩
  | succ n ih =>
      have hs := ballStep_mem h1 h2
      have h := ih hs.1 hs.2
      have e : x + π / 240 + n * (π / 240) = x + (n + 1 : ℕ) * (π / 240) := by push_cast; ring
      rw [e] at h
      exact h

theorem entryOK_sound {e : Int × Int} {p : ZBall × ZBall} {x : ℝ}
    (h1 : inBall (Real.cos x) p.1) (h2 : inBall (Real.sin x) p.2)
    (h : entryOK e p = true) :
    |(e.1 : ℝ) / 1000000000000000 - Real.cos x| ≤ 1 / 100000 ∧
    |(e.2 : ℝ) / 1000000000000000 + Real.sin x| ≤ 1 / 100000 := by
  simp only [entryOK, Bool.and_eq_true, decide_eq_true_eq] at h
  obtain ⟨hq1, hq2⟩ := h
  unfold inBall at h1 h2
  have hz1 : ((|e.1 * 1099511627776 - p.1.c * 1000000000000000| +
      p.1.r * 1000000000000000 : Int) : ℝ) ≤ ((10995116277760000000000 : Int) : ℝ) :=
    Int.cast_le.mpr hq1
  have hz2 : ((|e.2 * 1099511627776 + p.2.c * 1000000000000000| +
      p.2.r * 1000000000000000 : Int) : ℝ) ≤ ((10995116277760000000000 : Int) : ℝ) :=
    Int.cast_le.mpr hq2
  push_cast at hz1 hz2
  constructor
  · have hsplit : |(e.1 : ℝ) / 1000000000000000 - Real.cos x| ≤
        |(e.1 : ℝ) / 1000000000000000 - (p.1.c : ℝ) / 1099511627776| +
        |(p.1.c : ℝ) / 1099511627776 - Real.cos x| := abs_sub_le _ _ _
    have hcomm : |(p.1.c : ℝ) / 1099511627776 - Real.cos x| =
        |Real.cos x - (p.1.c : ℝ) / 1099511627776| := abs_sub_comm _ _
    have hfrac : |(e.1 : ℝ) / 1000000000000000 - (p.1.c : ℝ) / 1099511627776| =
        |(e.1 : ℝ) * 1099511627776 - (p.1.c : ℝ) * 1000000000000000| /
          (1000000000000000 * 1099511627776) := by
      rw [div_sub_div _ _ (by norm_num : (1000000000000000:ℝ) ≠ 0)
        (by norm_num : (1099511627776:ℝ) ≠ 0), abs_div,
        abs_of_pos (by norm_num : (0:ℝ) < 1000000000000000 * 1099511627776)]
      ring_nf
    rw [hcomm] at hsplit
    rw [hfrac] at hsplit
    have habs : (0:ℝ) ≤ |(e.1 : ℝ) * 1099511627776 - (p.1.c : ℝ) * 1000000000000000| :=
      abs_nonneg _
    nlinarith [h1, hsplit, hz1]
  · have hsplit : |(e.2 : ℝ) / 1000000000000000 + Real.sin x| ≤
        |(e.2 : ℝ) / 1000000000000000 + (p.2.c : ℝ) / 1099511627776| +
        |Real.sin x - (p.2.c : ℝ) / 1099511627776| := by
      have hid : (e.2 : ℝ) / 1000000000000000 + Real.sin x =
          ((e.2 : ℝ) / 1000000000000000 + (p.2.c : ℝ) / 1099511627776) +
          (Real.sin x - (p.2.c : ℝ) / 1099511627776) := by ring
      rw [hid]
      exact abs_add _ _
    have hfrac : |(e.2 : ℝ) / 1000000000000000 + (p.2.c : ℝ) / 1099511627776| =
        |(e.2 : ℝ) * 1099511627776 + (p.2.c : ℝ) * 1000000000000000| /
          (1000000000000000 * 1099511627776) := by
      rw [div_add_div _ _ (by norm_num : (1000000000000000:ℝ) ≠ 0)
        (by norm_num : (1099511627776:ℝ) ≠ 0), abs_div,
        abs_of_pos (by norm_num : (0:ℝ) < 1000000000000000 * 1099511627776)]
      ring_nf
    rw [hfrac] at hsplit
    have habs : (0:ℝ) ≤ |(e.2 : ℝ) * 1099511627776 + (p.2.c : ℝ) * 1000000000000000| :=
      abs_nonneg _
    nlinarith [h2, hsplit, hz2]

theorem checkIdx_sound (c : ℕ) : ∀ (p : ZBall × ZBall) (s i : ℕ) (tw : List (Int × Int)) (x : ℝ),
    inBall (Real.cos x) p.1 → inBall (Real.sin x) p.2 →
    checkIdx p s i c tw = true →
    ∀ k, k < c → twiddleApprox tw (i + k) (x + k * (s * (π / 240))) := by
  induction c with
  | zero => intro p s i tw x h1 h2 hc k hk; exact absurd hk (Nat.not_lt_zero k)
  | succ c ih =>
      intro p s i tw x h1 h2 hc k hk
      simp only [checkIdx, Bool.and_eq_true] at hc
      obtain ⟨he, hrest⟩ := hc
      cases k with
      | zero =>
          have h := entryOK_sound h1 h2 he
          simp only [twiddleApprox, twEntry]
          push_cast
          simpa using h
      | succ k =>
          have hs := nstep_mem s h1 h2
          have h := ih (nstep s p) s (i + 1) tw (x + s * (π / 240)) hs.1 hs.2 hrest k
            (by omega)
          have e1 : i + 1 + k = i + (k + 1) := by omega
          have e2 : x + s * (π / 240) + k * (s * (π / 240)) =
              x + (k + 1 : ℕ) * (s * (π / 240)) := by push_cast; ring
          rw [e1, e2] at h
          exact h
theorem twEntry_fst {tw : List (Int × Int)} {i : ℕ} {a b : Int}
    (h : tw.getD i (0, 0) = (a, b)) :
    (twEntry tw i).1 = (a : ℚ) / 1000000000000000 := by
  unfold twEntry
  rw [h]

theorem twEntry_snd {tw : List (Int × Int)} {i : ℕ} {a b : Int}
    (h : tw.getD i (0, 0) = (a, b)) :
    (twEntry tw i).2 = (b : ℚ) / 1000000000000000 := by
  unfold twEntry
  rw [h]

theorem sqrtOne_bridge (a b : Int)
    (h1 : (999999000000000 : Int) ^ 2 ≤ a ^ 2 + b ^ 2)
    (h2 : a ^ 2 + b ^ 2 ≤ (1000001000000000 : Int) ^ 2) :
    |Real.sqrt (((a : ℝ) / 1000000000000000) ^ 2 + ((b : ℝ) / 1000000000000000) ^ 2) - 1| ≤
      1 / 1000000 := by
  have hc1 : (((999999000000000 : Int) ^ 2 : Int) : ℝ) ≤ ((a ^ 2 + b ^ 2 : Int) : ℝ) :=
    Int.cast_le.mpr h1
  have hc2 : ((a ^ 2 + b ^ 2 : Int) : ℝ) ≤ (((1000001000000000 : Int) ^ 2 : Int) : ℝ) :=
    Int.cast_le.mpr h2
  push_cast at hc1 hc2
  set q : ℝ := ((a : ℝ) / 1000000000000000) ^ 2 + ((b : ℝ) / 1000000000000000) ^ 2 with hq
  have hqval : q = ((a : ℝ) ^ 2 + (b : ℝ) ^ 2) / 1000000000000000 ^ 2 := by
    rw [hq]; ring
  have hql : ((999999 : ℝ) / 1000000) ^ 2 ≤ q := by
    rw [hqval]; nlinarith
  have hqh : q ≤ ((1000001 : ℝ) / 1000000) ^ 2 := by
    rw [hqval]; nlinarith
  have hup : Real.sqrt q ≤ 1000001 / 1000000 := by
    rw [show ((1000001 : ℝ) / 1000000) = Real.sqrt (((1000001 : ℝ) / 1000000) ^ 2) from
      (Real.sqrt_sq (by norm_num)).symm]
    exact Real.sqrt_le_sqrt hqh
  have hlo : (999999 : ℝ) / 1000000 ≤ Real.sqrt q := by
    rw [Real.le_sqrt (by norm_num) (by positivity)]
    exact hql
  rw [abs_le]
  constructor
  · linarith
  · linarith

theorem unitMag_table (tw : List (Int × Int)) (N : ℕ) (hlen : tw.length = N)
    (hall : ∀ p ∈ tw, (999999000000000 : Int) ^ 2 ≤ p.1 ^ 2 + p.2 ^ 2 ∧
      p.1 ^ 2 + p.2 ^ 2 ≤ (1000001000000000 : Int) ^ 2)
    (k : ℕ) (hk : k < N) :
    |Real.sqrt (((twEntry tw k).1 : ℝ) ^ 2 + ((twEntry tw k).2 : ℝ) ^ 2) - 1| ≤ 1 / 1000000 := by
  have hk' : k < tw.length := by omega
  have hmem : tw.getD k (0, 0) ∈ tw := by
    rw [List.getD_eq_getElem tw (0, 0) hk']
    exact List.getElem_mem hk'
  have hb := hall _ hmem
  simp only [twEntry]
  push_cast
  exact sqrtOne_bridge _ _ hb.1 hb.2

/-- C1 (counterexample): the claim fails at transform length 60, index 1.
Entry 1 of ne10_twiddles_60 is the pair (1.0, -0.0), while e^(-2*pi*i/60)
has imaginary part -sin(pi/30), which is about -0.1045, so the entry misses
the claimed value by far more than single-precision accuracy. -/
theorem C1_counterexample : ¬ C1Claim ne10_twiddles_60 60 1 := by
  intro h
  have h2 := h.2
  have hval : ne10_twiddles_60.getD 1 (0, 0) = (1000000000000000, 0) := by decide
  have him : ((twEntry ne10_twiddles_60 1).2 : ℝ) = 0 := by
    rw [twEntry_snd hval]
    norm_num
  rw [him] at h2
  have hs := (nstep_mem 8 unit_cos unit_sin).2
  have hc : (nstep 8 unitBall).2.c = 114930254175 := by decide
  have hr : (nstep 8 unitBall).2.r = 33103 := by decide
  unfold inBall at hs
  rw [hc, hr] at hs
  have e : (0 : ℝ) + (8 : ℕ) * (π / 240) = 2 * π * (1 : ℕ) / (60 : ℕ) := by
    push_cast; ring
  rw [e] at hs
  have hlow := (abs_le.mp hs).1
  have hup := (abs_le.mp h2).2
  norm_num at hlow hup
  linarith

/-- C1 (amended): for every generated table of nominal transform length N in
60, 120, 240, 480 and every k with k < N/4, the entry at index N/4 + k (not
at index k) equals e^(-2*pi*i*k/N) to single-precision accuracy (within
1/100000 componentwise); the table is a concatenation of per-stage blocks
rather than a single linear scan of the unit circle over all N indices, and
the full linear scan occupies the block at offset N/4. -/
theorem C1_linear_block :
    ∀ N tw, (N, tw) ∈ twiddleTables → ∀ k, k < N / 4 →
      twiddleApprox tw (N / 4 + k) (2 * π * k / N) := by
  intro N tw hmem k hk
  simp only [twiddleTables, List.mem_cons, List.not_mem_nil, or_false,
    Prod.mk.injEq] at hmem
  rcases hmem with ⟨rfl, rfl⟩ | ⟨rfl, rfl⟩ | ⟨rfl, rfl⟩ | ⟨rfl, rfl⟩
  · have hk' : k < 120 := by omega
    have hchk : checkIdx unitBall 1 120 120 ne10_twiddles_480 = true := by decide
    have hs := checkIdx_sound 120 unitBall 1 120 ne10_twiddles_480 0 unit_cos unit_sin hchk k hk'
    have e1 : 480 / 4 + k = 120 + k := by norm_num
    have e2 : (0 : ℝ) + (k : ℝ) * (((1 : ℕ) : ℝ) * (π / 240)) =
        2 * π * (k : ℝ) / ((480 : ℕ) : ℝ) := by
      push_cast; ring
    rw [e1, ← e2]
    exact hs
  · have hk' : k < 60 := by omega
    have hchk : checkIdx unitBall 2 60 60 ne10_twiddles_240 = true := by decide
    have hs := checkIdx_sound 60 unitBall 2 60 ne10_twiddles_240 0 unit_cos unit_sin hchk k hk'
    have e1 : 240 / 4 + k = 60 + k := by norm_num
    have e2 : (0 : ℝ) + (k : ℝ) * (((2 : ℕ) : ℝ) * (π / 240)) =
        2 * π * (k : ℝ) / ((240 : ℕ) : ℝ) := by
      push_cast; ring
    rw [e1, ← e2]
    exact hs
  · have hk' : k < 30 := by omega
    have hchk : checkIdx unitBall 4 30 30 ne10_twiddles_120 = true := by decide
    have hs := checkIdx_sound 30 unitBall 4 30 ne10_twiddles_120 0 unit_cos unit_sin hchk k hk'
    have e1 : 120 / 4 + k = 30 + k := by norm_num
    have e2 : (0 : ℝ) + (k : ℝ) * (((4 : ℕ) : ℝ) * (π / 240)) =
        2 * π * (k : ℝ) / ((120 : ℕ) : ℝ) := by
      push_cast; ring
    rw [e1, ← e2]
    exact hs
  · have hk' : k < 15 := by omega
    have hchk : checkIdx unitBall 8 15 15 ne10_twiddles_60 = true := by decide
    have hs := checkIdx_sound 15 unitBall 8 15 ne10_twiddles_60 0 unit_cos unit_sin hchk k hk'
    have e1 : 60 / 4 + k = 15 + k := by norm_num
    have e2 : (0 : ℝ) + (k : ℝ) * (((8 : ℕ) : ℝ) * (π / 240)) =
        2 * π * (k : ℝ) / ((60 : ℕ) : ℝ) := by
      push_cast; ring
    rw [e1, ← e2]
    exact hs

/-- C1 (witness): the amended theorem applied at length 60, k = 1. -/
theorem C1_linear_block_witness :
    ((60, ne10_twiddles_60) ∈ twiddleTables ∧ 1 < 60 / 4) ∧
    twiddleApprox ne10_twiddles_60 (60 / 4 + 1) (2 * π * ((1 : ℕ) : ℝ) / ((60 : ℕ) : ℝ)) :=
  ⟨⟨by simp [twiddleTables], by norm_num⟩,
   C1_linear_block 60 ne10_twiddles_60 (by simp [twiddleTables]) 1 (by norm_num)⟩

/-- C2 (counterexample): for length 60 the factors buffer is
2, 5, 5, 3, 3, 1, 1 followed by zeros, and the product of its nonzero
entries is 450, not 60: the buffer is not a plain factor list. -/
theorem C2_counterexample : ¬ C2Claim 60 ne10_factors_60 := by
  intro h
  simp only [C2Claim] at h
  exact absurd h (by decide)

/-- C2 (amended): the factors buffer has the NE10 layout, namely stage
count, stride, then (radix, remainder) pairs closed by the sentinel pair
(1, 0) and zero padding.  The product of the stage radices equals the
stored complex transform length nfft of the descriptor, which is one
quarter of the nominal length. -/
theorem C2_radix_product :
    ((stageRadices ne10_fft_state_float32_t_480.factors).prod =
        ne10_fft_state_float32_t_480.nfft ∧
      ne10_fft_state_float32_t_480.nfft * 4 = 480) ∧
    ((stageRadices ne10_fft_state_float32_t_240.factors).prod =
        ne10_fft_state_float32_t_240.nfft ∧
      ne10_fft_state_float32_t_240.nfft * 4 = 240) ∧
    ((stageRadices ne10_fft_state_float32_t_120.factors).prod =
        ne10_fft_state_float32_t_120.nfft ∧
      ne10_fft_state_float32_t_120.nfft * 4 = 120) ∧
    ((stageRadices ne10_fft_state_float32_t_60.factors).prod =
        ne10_fft_state_float32_t_60.nfft ∧
      ne10_fft_state_float32_t_60.nfft * 4 = 60) := by
  decide

/-- C3 (counterexample): entry 1 of ne10_twiddles_60 is (1.0, -0.0), whose
real part differs from the claimed 0.99452192 by about 0.0055, far beyond
any reasonable tolerance. -/
theorem C3_counterexample : ¬ C3Claim := by
  intro h
  have h1 := h.2.1
  have hval : ne10_twiddles_60.getD 1 (0, 0) = (1000000000000000, 0) := by decide
  have hre : (twEntry ne10_twiddles_60 1).1 = 1 := by
    rw [twEntry_fst hval]
    norm_num
  rw [hre] at h1
  have h2 := (le_abs_self ((1 : ℚ) - 0.99452192)).trans h1
  norm_num at h2

/-- C3 (amended): the factors buffer for length 60 begins 2, 5, 5, 3, 3, 1,
1, and the value (0.99452192, -0.10452846) = e^(-2*pi*i/60) appears at index
16, the k = 1 position of the linear-scan block that starts at offset
60 / 4 = 15, not at index 1. -/
theorem C3_known_values :
    ne10_factors_60.take 7 = [2, 5, 5, 3, 3, 1, 1] ∧
    |(twEntry ne10_twiddles_60 16).1 - 0.99452192| ≤ 1 / 1000000 ∧
    |(twEntry ne10_twiddles_60 16).2 - (-0.10452846)| ≤ 1 / 1000000 := by
  have hval : ne10_twiddles_60.getD 16 (0, 0) = (994521920000000, -104528460000000) := by
    decide
  refine ⟨by decide, ?_, ?_⟩
  · rw [twEntry_fst hval, abs_sub_le_iff]
    constructor <;> norm_num
  · rw [twEntry_snd hval, abs_sub_le_iff]
    constructor <;> norm_num

/-- C4 (confirmed): the factors buffer for length 480 begins
4, 40, 4, 30, 2, 15, 5, 3, 3, 1, 1, and entry 4 of the length-480 forward
twiddle table is (0.91354543, -0.40673664), matching the claimed values
exactly as stored decimals. -/
theorem C4_known_values :
    ne10_factors_480.take 11 = [4, 40, 4, 30, 2, 15, 5, 3, 3, 1, 1] ∧
    |(twEntry ne10_twiddles_480 4).1 - 0.91354543| ≤ 1 / 1000000 ∧
    |(twEntry ne10_twiddles_480 4).2 - (-0.40673664)| ≤ 1 / 1000000 := by
  have hval : ne10_twiddles_480.getD 4 (0, 0) = (913545430000000, -406736640000000) := by
    decide
  refine ⟨by decide, ?_, ?_⟩
  · rw [twEntry_fst hval, abs_sub_le_iff]
    constructor <;> norm_num
  · rw [twEntry_snd hval, abs_sub_le_iff]
    constructor <;> norm_num

/-- C5 (confirmed): every entry of every generated forward twiddle table
has complex magnitude 1 within an absolute tolerance of 1/1000000. -/
theorem C5_unit_magnitude :
    ∀ N tw, (N, tw) ∈ twiddleTables → ∀ k, k < N →
      |Real.sqrt (((twEntry tw k).1 : ℝ) ^ 2 + ((twEntry tw k).2 : ℝ) ^ 2) - 1| ≤
        1 / 1000000 := by
  intro N tw hmem k hk
  simp only [twiddleTables, List.mem_cons, List.not_mem_nil, or_false,
    Prod.mk.injEq] at hmem
  rcases hmem with ⟨rfl, rfl⟩ | ⟨rfl, rfl⟩ | ⟨rfl, rfl⟩ | ⟨rfl, rfl⟩
  · exact unitMag_table _ 480 (by decide) (by decide) k hk
  · exact unitMag_table _ 240 (by decide) (by decide) k hk
  · exact unitMag_table _ 120 (by decide) (by decide) k hk
  · exact unitMag_table _ 60 (by decide) (by decide) k hk

/-- C5 (witness): the magnitude theorem applied at length 60, index 0. -/
theorem C5_unit_magnitude_witness :
    ((60, ne10_twiddles_60) ∈ twiddleTables ∧ 0 < 60) ∧
    |Real.sqrt (((twEntry ne10_twiddles_60 0).1 : ℝ) ^ 2 +
      ((twEntry ne10_twiddles_60 0).2 : ℝ) ^ 2) - 1| ≤ 1 / 1000000 :=
  ⟨⟨by simp [twiddleTables], by norm_num⟩,
   C5_unit_magnitude 60 ne10_twiddles_60 (by simp [twiddleTables]) 0 (by norm_num)⟩

/-- C6 (confirmed): each of the four forward twiddle tables starts with the
exact complex value (1.0, 0.0), the DC term. -/
theorem C6_dc_term :
    twEntry ne10_twiddles_480 0 = (1, 0) ∧ twEntry ne10_twiddles_240 0 = (1, 0) ∧
    twEntry ne10_twiddles_120 0 = (1, 0) ∧ twEntry ne10_twiddles_60 0 = (1, 0) := by
  have h480 : ne10_twiddles_480.getD 0 (0, 0) = (1000000000000000, 0) := by decide
  have h240 : ne10_twiddles_240.getD 0 (0, 0) = (1000000000000000, 0) := by decide
  have h120 : ne10_twiddles_120.getD 0 (0, 0) = (1000000000000000, 0) := by decide
  have h60 : ne10_twiddles_60.getD 0 (0, 0) = (1000000000000000, 0) := by decide
  refine ⟨?_, ?_, ?_, ?_⟩ <;> rw [Prod.ext_iff]
  · exact ⟨by rw [twEntry_fst h480]; norm_num, by rw [twEntry_snd h480]; norm_num⟩
  · exact ⟨by rw [twEntry_fst h240]; norm_num, by rw [twEntry_snd h240]; norm_num⟩
  · exact ⟨by rw [twEntry_fst h120]; norm_num, by rw [twEntry_snd h120]; norm_num⟩
  · exact ⟨by rw [twEntry_fst h60]; norm_num, by rw [twEntry_snd h60]; norm_num⟩

/-- C7 (counterexample): the 480-point table holds 480 entries, but the
stored length field nfft of its descriptor is 120, not 480, so the entry
count does not equal the stored length field. -/
theorem C7_counterexample :
    ¬ C7Claim 480 ne10_twiddles_480 ne10_fft_state_float32_t_480 := by
  intro h
  exact absurd h.2 (by decide)

/-- C7 (amended): each generated forward twiddle table for nominal length N
contains exactly N complex entries, and N is four times the stored length
field nfft of the descriptor (the complex FFT size), not the stored field
itself. -/
theorem C7_table_size :
    (ne10_twiddles_480.length = 480 ∧ ne10_fft_state_float32_t_480.nfft * 4 = 480) ∧
    (ne10_twiddles_240.length = 240 ∧ ne10_fft_state_float32_t_240.nfft * 4 = 240) ∧
    (ne10_twiddles_120.length = 120 ∧ ne10_fft_state_float32_t_120.nfft * 4 = 120) ∧
    (ne10_twiddles_60.length = 60 ∧ ne10_fft_state_float32_t_60.nfft * 4 = 60) := by
  decide

/-- C8 (confirmed): every generated descriptor sets is_forward_scaled to 1
(true) and is_backward_scaled to 0 (false). -/
theorem C8_scale_flags :
    (ne10_fft_state_float32_t_480.is_forward_scaled = 1 ∧
      ne10_fft_state_float32_t_480.is_backward_scaled = 0) ∧
    (ne10_fft_state_float32_t_240.is_forward_scaled = 1 ∧
      ne10_fft_state_float32_t_240.is_backward_scaled = 0) ∧
    (ne10_fft_state_float32_t_120.is_forward_scaled = 1 ∧
      ne10_fft_state_float32_t_120.is_backward_scaled = 0) ∧
    (ne10_fft_state_float32_t_60.is_forward_scaled = 1 ∧
      ne10_fft_state_float32_t_60.is_backward_scaled = 0) :=
  ⟨⟨rfl, rfl⟩, ⟨rfl, rfl⟩, ⟨rfl, rfl⟩, ⟨rfl, rfl⟩⟩

/-- C9 (confirmed): the stored length field of each descriptor is one
quarter of the nominal transform length the table set is named for: 120,
60, 30 and 15 for the nominal lengths 480, 240, 120 and 60. -/
theorem C9_quarter_length :
    (ne10_fft_state_float32_t_480.nfft = 120 ∧ (480 : Int) = 4 * 120) ∧
    (ne10_fft_state_float32_t_240.nfft = 60 ∧ (240 : Int) = 4 * 60) ∧
    (ne10_fft_state_float32_t_120.nfft = 30 ∧ (120 : Int) = 4 * 30) ∧
    (ne10_fft_state_float32_t_60.nfft = 15 ∧ (60 : Int) = 4 * 15) := by
  decide

/-- C10 (confirmed): in every descriptor the backward twiddle pointer is
not an independent table: it points into the forward table itself, at an
element offset equal to the stored length field (120, 60, 30 and 15
respectively), while the forward pointer has offset 0. -/
theorem C10_backward_alias :
    (ne10_fft_state_float32_t_480.last_twiddles.base =
        ne10_fft_state_float32_t_480.twiddles.base ∧
      ne10_fft_state_float32_t_480.twiddles.offset = 0 ∧
      (ne10_fft_state_float32_t_480.last_twiddles.offset : Int) =
        ne10_fft_state_float32_t_480.nfft) ∧
    (ne10_fft_state_float32_t_240.last_twiddles.base =
        ne10_fft_state_float32_t_240.twiddles.base ∧
      ne10_fft_state_float32_t_240.twiddles.offset = 0 ∧
      (ne10_fft_state_float32_t_240.last_twiddles.offset : Int) =
        ne10_fft_state_float32_t_240.nfft) ∧
    (ne10_fft_state_float32_t_120.last_twiddles.base =
        ne10_fft_state_float32_t_120.twiddles.base ∧
      ne10_fft_state_float32_t_120.twiddles.offset = 0 ∧
      (ne10_fft_state_float32_t_120.last_twiddles.offset : Int) =
        ne10_fft_state_float32_t_120.nfft) ∧
    (ne10_fft_state_float32_t_60.last_twiddles.base =
        ne10_fft_state_float32_t_60.twiddles.base ∧
      ne10_fft_state_float32_t_60.twiddles.offset = 0 ∧
      (ne10_fft_state_float32_t_60.last_twiddles.offset : Int) =
        ne10_fft_state_float32_t_60.nfft) :=
  ⟨⟨rfl, rfl, rfl⟩, ⟨rfl, rfl, rfl⟩, ⟨rfl, rfl, rfl⟩, ⟨rfl, rfl, rfl⟩⟩
